import Mathlib

/-!
Verification of the core risk-assessment engine of `src/script.js`
(cash-flow-risk-report).

JavaScript numbers are modelled as exact rationals (`ℚ`): every arithmetic
operation the engine performs on its documented input domain (sums of four
scores, division by 4, multiplication by 10, comparisons against the integer
thresholds 35/50/70) is exact. `Math.floor` is `Int.floor`; `Math.round x`
is `⌊x + 1/2⌋` (JavaScript rounds half-ties toward +∞). The one JavaScript
value with no rational counterpart, `NaN` (arising only from `0/0` on an
empty batch), is modelled explicitly by `Option ℚ` where `none` is the NaN
sentinel, and the JavaScript comparison `NaN < x = false` by `jsLtB`.
-/

/-- A raw customer record: `customer_id` plus the four criterion scores
(`src/script.js`, CSV contract and `generateSampleData`). -/
structure Customer where
  customer_id : String
  transaction_history : ℚ
  affordability : ℚ
  employment : ℚ
  behavior : ℚ
deriving Repr, DecidableEq

/-- `RISK_THRESHOLDS.low` (script.js line 78). -/
def RISK_THRESHOLDS_low : ℚ := 70

/-- `RISK_THRESHOLDS.moderate` (script.js line 79). -/
def RISK_THRESHOLDS_moderate : ℚ := 50

/-- `RISK_THRESHOLDS.elevated` (script.js line 80). -/
def RISK_THRESHOLDS_elevated : ℚ := 35

/-- `getRiskLevel` (script.js lines 111-116): overall risk label for a score. -/
def getRiskLevel (score : ℚ) : String :=
  if score ≥ RISK_THRESHOLDS_low then "Low Risk"
  else if score ≥ RISK_THRESHOLDS_moderate then "Moderate Risk"
  else if score ≥ RISK_THRESHOLDS_elevated then "Elevated Risk"
  else "High Risk"

/-- `getCriteriaRisk` (script.js lines 125-130): short per-criterion tier. -/
def getCriteriaRisk (score : ℚ) : String :=
  if score ≥ RISK_THRESHOLDS_low then "low"
  else if score ≥ RISK_THRESHOLDS_moderate then "moderate"
  else if score ≥ RISK_THRESHOLDS_elevated then "elevated"
  else "high"

/-- `determineDecision` (script.js lines 155-207): classifies the four scores
into tiers, tallies them (`Object.values(risks)` iterates in insertion order:
transaction, affordability, employment, behavior), then walks the ordered
if-chain of business rules. -/
def determineDecision (customer : Customer) : String :=
  let risksTransaction := getCriteriaRisk customer.transaction_history
  let risksAffordability := getCriteriaRisk customer.affordability
  let risksEmployment := getCriteriaRisk customer.employment
  let risksBehavior := getCriteriaRisk customer.behavior
  let riskValues := [risksTransaction, risksAffordability, risksEmployment, risksBehavior]
  let countLow := riskValues.count "low"
  let countModerate := riskValues.count "moderate"
  let countElevated := riskValues.count "elevated"
  let countHigh := riskValues.count "high"
  if countHigh > 0 then "Auto Deny"
  else if countElevated ≥ 2 then "Auto Deny"
  else if risksAffordability = "elevated" ∧ countModerate = 3 then "Auto Deny"
  else if countLow = 4 then "Auto Approve"
  else if countLow ≥ 2 ∧ countElevated = 0 then "Auto Approve"
  else if countElevated = 1 then "Elevated Risk"
  else "Manual Review"

/-- `calculateCombinedScore` (script.js lines 219-226): equally weighted mean. -/
def calculateCombinedScore (customer : Customer) : ℚ :=
  (customer.transaction_history + customer.affordability +
    customer.employment + customer.behavior) / 4

/-- JavaScript `Math.round`: nearest integer, half-ties toward +∞. -/
def jsRound (x : ℚ) : ℤ := ⌊x + 1/2⌋

/-- The claim-side decision function over a four-tuple of tiers, written as
the ordered rule list of spec §4.2 (first match wins): tally the tiers, then
rules 1-7 in order. Compared with `determineDecision` for the refinement. -/
def decideFromTiers (t a e b : String) : String :=
  let tiers := [t, a, e, b]
  let tallyLow := tiers.count "low"
  let tallyModerate := tiers.count "moderate"
  let tallyElevated := tiers.count "elevated"
  let tallyHigh := tiers.count "high"
  if tallyHigh > 0 then "Auto Deny"
  else if tallyElevated ≥ 2 then "Auto Deny"
  else if a = "elevated" ∧ tallyModerate = 3 then "Auto Deny"
  else if tallyLow = 4 then "Auto Approve"
  else if tallyLow ≥ 2 ∧ tallyElevated = 0 then "Auto Approve"
  else if tallyElevated = 1 then "Elevated Risk"
  else "Manual Review"

/-- A processed record (spec §3 `ProcessedRecord`): the customer record
extended with the three derived fields added by `processData`. -/
structure Processed where
  customer_id : String
  transaction_history : ℚ
  affordability : ℚ
  employment : ℚ
  behavior : ℚ
  combined_score : ℚ
  risk_level : String
  decision : String
deriving Repr, DecidableEq

/-- The per-record body of `processData`'s `map` (script.js lines 345-355):
the spread `{...customer, ...}` copies the five input fields unchanged and
adds `combined_score` (the mean rounded at the tenths digit via
`Math.round(combinedScore * 10) / 10`), `risk_level` (classifier applied to
the *unrounded* `combinedScore` local), and `decision`. -/
def processOne (customer : Customer) : Processed :=
  let combinedScore := calculateCombinedScore customer
  let riskLevel := getRiskLevel combinedScore
  let decision := determineDecision customer
  { customer_id := customer.customer_id
    transaction_history := customer.transaction_history
    affordability := customer.affordability
    employment := customer.employment
    behavior := customer.behavior
    combined_score := (jsRound (combinedScore * 10) : ℚ) / 10
    risk_level := riskLevel
    decision := decision }

/-- `processData` (script.js lines 344-357): `rawData.map(...)`. -/
def processData (rawData : List Customer) : List Processed :=
  rawData.map processOne

/-- Round-half-away-from-zero at the tenths digit, written from the claim's
words (C3): magnitude rounds half up, sign restored, at one decimal place. -/
def roundHalfAwayTenths (x : ℚ) : ℚ :=
  if 0 ≤ x then ((⌊x * 10 + 1/2⌋ : ℤ) : ℚ) / 10
  else -(((⌊-(x * 10) + 1/2⌋ : ℤ) : ℚ) / 10)

/-- Map from the short per-criterion tier labels of `getCriteriaRisk` to the
long labels of `getRiskLevel`. -/
def tierLongLabel (r : String) : String :=
  if r = "low" then "Low Risk"
  else if r = "moderate" then "Moderate Risk"
  else if r = "elevated" then "Elevated Risk"
  else if r = "high" then "High Risk"
  else r

/-- **C2** — `getCriteriaRisk` (and `getRiskLevel`) is total and assigns
exactly one tier, with boundaries closed below and open above at 35, 50, 70:
Low iff `s ≥ 70`, Moderate iff `50 ≤ s < 70`, Elevated iff `35 ≤ s < 50`,
High iff `s < 35`; in particular `classify 69.999 = Moderate` and
`classify 70 = Low`. -/
theorem getCriteriaRisk_boundaries (s : ℚ) :
    (getCriteriaRisk s = "low" ↔ 70 ≤ s) ∧
    (getCriteriaRisk s = "moderate" ↔ 50 ≤ s ∧ s < 70) ∧
    (getCriteriaRisk s = "elevated" ↔ 35 ≤ s ∧ s < 50) ∧
    (getCriteriaRisk s = "high" ↔ s < 35) ∧
    (getRiskLevel s = "Low Risk" ↔ 70 ≤ s) ∧
    (getRiskLevel s = "Moderate Risk" ↔ 50 ≤ s ∧ s < 70) ∧
    (getRiskLevel s = "Elevated Risk" ↔ 35 ≤ s ∧ s < 50) ∧
    (getRiskLevel s = "High Risk" ↔ s < 35) ∧
    getCriteriaRisk (69.999 : ℚ) = "moderate" ∧
    getCriteriaRisk (70 : ℚ) = "low" := by
  unfold getCriteriaRisk getRiskLevel
    RISK_THRESHOLDS_low RISK_THRESHOLDS_moderate RISK_THRESHOLDS_elevated
  refine ⟨?_, ?_, ?_, ?_, ?_, ?_, ?_, ?_, by norm_num, by norm_num⟩ <;>
    split_ifs <;> simp_all <;> first
      | linarith
      | (intro h2; linarith)

/-- **C10** — the two classifier functions agree up to label naming: for every
score, `getRiskLevel s` is exactly the long-label rendering of
`getCriteriaRisk s`, so the overall risk level and the per-criterion tiers
are derived from identical thresholds. -/
theorem getRiskLevel_eq_tierLongLabel_getCriteriaRisk (s : ℚ) :
    getRiskLevel s = tierLongLabel (getCriteriaRisk s) := by
  unfold getRiskLevel getCriteriaRisk tierLongLabel
  split_ifs <;> simp_all

/-- **C1** — `determineDecision` classifies the four scores into tiers and
returns the outcome of the first matching rule in the exact order: (1)
AutoDeny on any High; (2) AutoDeny on two or more Elevated; (3) AutoDeny on
Elevated affordability with exactly three Moderate; (4) AutoApprove on four
Low; (5) AutoApprove on at least two Low and no Elevated; (6) ElevatedRisk
on exactly one Elevated; (7) ManualReview otherwise — and it is total,
always returning exactly one of the four decisions. -/
theorem determineDecision_rules (c : Customer) :
    determineDecision c =
      decideFromTiers (getCriteriaRisk c.transaction_history)
        (getCriteriaRisk c.affordability)
        (getCriteriaRisk c.employment)
        (getCriteriaRisk c.behavior) ∧
    determineDecision c ∈
      ["Auto Deny", "Auto Approve", "Elevated Risk", "Manual Review"] := by
  constructor
  · rfl
  · unfold determineDecision
    dsimp only
    split_ifs <;> simp

/-- **C3 counterexample** — the claim says `combined_score` rounds the mean
half-away-from-zero for every numeric input including negative ones. For the
record with scores (-1/5, 0, 0, 0) the mean is -1/20 = -0.05: the code stores
`Math.round(-0.5)/10 = 0` (JavaScript rounds half-ties toward +∞), while
round-half-away-from-zero gives -0.1. -/
theorem combinedScore_halfAway_counterexample :
    (processOne ⟨"CUST-0001", -1/5, 0, 0, 0⟩).combined_score = 0 ∧
    roundHalfAwayTenths (calculateCombinedScore ⟨"CUST-0001", -1/5, 0, 0, 0⟩) =
      -(1/10) ∧
    (0 : ℚ) ≠ -(1/10) := by
  refine ⟨?_, ?_, by norm_num⟩ <;>
    norm_num [processOne, calculateCombinedScore, jsRound, roundHalfAwayTenths]

/-- **C3 (amended)** — `combined_score` is the arithmetic mean of the four
criterion values (equal 25% weights) rounded to one decimal place using
JavaScript `Math.round` semantics at the tenths digit (half-ties toward +∞),
for every numeric input including negative and out-of-range values; this
coincides with round-half-away-from-zero whenever the mean is non-negative. -/
theorem combinedScore_mean_rounding (c : Customer) :
    calculateCombinedScore c =
      (c.transaction_history + c.affordability + c.employment + c.behavior) / 4 ∧
    (processOne c).combined_score =
      ((⌊calculateCombinedScore c * 10 + 1/2⌋ : ℤ) : ℚ) / 10 ∧
    (0 ≤ calculateCombinedScore c →
      (processOne c).combined_score = roundHalfAwayTenths (calculateCombinedScore c)) := by
  refine ⟨rfl, rfl, fun hc => ?_⟩
  rw [roundHalfAwayTenths, if_pos hc]
  rfl

/-- Witness for the amended C3 at a concrete record with non-negative mean. -/
theorem combinedScore_mean_rounding_witness :
    0 ≤ calculateCombinedScore ⟨"CUST-0001", 0, 0, 0, 1⟩ ∧
    (processOne ⟨"CUST-0001", 0, 0, 0, 1⟩).combined_score =
      roundHalfAwayTenths (calculateCombinedScore ⟨"CUST-0001", 0, 0, 0, 1⟩) :=
  ⟨by norm_num [calculateCombinedScore],
   (combinedScore_mean_rounding ⟨"CUST-0001", 0, 0, 0, 1⟩).2.2
     (by norm_num [calculateCombinedScore])⟩

/-- **C4 counterexample** — the claim says `risk_level` is the classifier
applied to the stored (rounded) `combined_score`. For scores
(2239/32, 70, 70, 70) — i.e. (69.96875, 70, 70, 70), all exactly
representable — the mean is 69.9921875, so the code stores `risk_level =
"Moderate Risk"` (classifier on the unrounded mean), while the rounded
`combined_score` field is 70.0, which classifies as `"Low Risk"`. -/
theorem riskLevel_unrounded_counterexample :
    (processOne ⟨"CUST-0001", 2239/32, 70, 70, 70⟩).risk_level = "Moderate Risk" ∧
    getRiskLevel ((processOne ⟨"CUST-0001", 2239/32, 70, 70, 70⟩).combined_score) =
      "Low Risk" ∧
    ("Moderate Risk" : String) ≠ "Low Risk" := by
  refine ⟨?_, ?_, by decide⟩ <;>
    norm_num [processOne, calculateCombinedScore, jsRound, getRiskLevel,
      RISK_THRESHOLDS_low, RISK_THRESHOLDS_moderate, RISK_THRESHOLDS_elevated,
      Int.floor_eq_iff]

/-- **C4 (amended)** — `risk_level` equals the classifier applied to the
*unrounded* arithmetic mean of the four criterion values (the
`combinedScore` local of `processData`), not to the rounded
`combined_score` field. -/
theorem riskLevel_from_unrounded_mean (c : Customer) :
    (processOne c).risk_level = getRiskLevel (calculateCombinedScore c) ∧
    (processOne c).risk_level =
      getRiskLevel
        ((c.transaction_history + c.affordability + c.employment + c.behavior) / 4) :=
  ⟨rfl, rfl⟩

/-- **C9** — `processData` returns a list of the same length as its input,
and the i-th output preserves unchanged the `customer_id` and all four
criterion values of the i-th input, adding only the three derived fields
(`combined_score`, `risk_level`, `decision`). The source's per-record spread
`{...customer, ...}` copies into a fresh object and `map` builds a fresh
array, so the input batch is not mutated — in this pure embedding the input
list is untouched by construction. -/
theorem processData_preserves (l : List Customer) (i : ℕ) (h : i < l.length) :
    (processData l).length = l.length ∧
    ∀ h2 : i < (processData l).length,
      ((processData l).get ⟨i, h2⟩).customer_id = (l.get ⟨i, h⟩).customer_id ∧
      ((processData l).get ⟨i, h2⟩).transaction_history =
        (l.get ⟨i, h⟩).transaction_history ∧
      ((processData l).get ⟨i, h2⟩).affordability = (l.get ⟨i, h⟩).affordability ∧
      ((processData l).get ⟨i, h2⟩).employment = (l.get ⟨i, h⟩).employment ∧
      ((processData l).get ⟨i, h2⟩).behavior = (l.get ⟨i, h⟩).behavior ∧
      ((processData l).get ⟨i, h2⟩).combined_score =
        (processOne (l.get ⟨i, h⟩)).combined_score ∧
      ((processData l).get ⟨i, h2⟩).risk_level =
        getRiskLevel (calculateCombinedScore (l.get ⟨i, h⟩)) ∧
      ((processData l).get ⟨i, h2⟩).decision = determineDecision (l.get ⟨i, h⟩) := by
  refine ⟨by simp [processData], fun h2 => ?_⟩
  have hm : (processData l).get ⟨i, h2⟩ = processOne (l.get ⟨i, h⟩) := by
    simp [processData]
  rw [hm]
  exact ⟨rfl, rfl, rfl, rfl, rfl, rfl, rfl, rfl⟩

/-- Witness for C9 on a concrete two-record batch at index 1. -/
theorem processData_preserves_witness :
    (processData [⟨"CUST-0001", 80, 65, 90, 70⟩,
      ⟨"CUST-0002", 30, 40, 50, 60⟩]).length = 2 ∧
    ((processData [⟨"CUST-0001", 80, 65, 90, 70⟩,
      ⟨"CUST-0002", 30, 40, 50, 60⟩]).get ⟨1, by decide⟩).customer_id =
      "CUST-0002" := by
  have h := processData_preserves
    [⟨"CUST-0001", 80, 65, 90, 70⟩, ⟨"CUST-0002", 30, 40, 50, 60⟩] 1 (by decide)
  exact ⟨h.1, ((h.2 (by decide)).1).trans rfl⟩

/-- JavaScript division, with `none` as the NaN sentinel: the only
zero-denominator division the analysis code can perform is `0/0` on an empty
batch, which is JavaScript `NaN`. -/
def jsDiv (a b : ℚ) : Option ℚ := if b = 0 then none else some (a / b)

/-- One entry of the array returned by `analyzeCriteria`
(script.js lines 571-575). -/
structure CriterionStat where
  key : String
  name : String
  avgScore : Option ℚ
deriving Repr, DecidableEq

/-- Dynamic field access `d[criterion]` for the four criterion keys used by
`analyzeCriteria`. -/
def critValue (d : Processed) (criterion : String) : ℚ :=
  if criterion = "transaction_history" then d.transaction_history
  else if criterion = "affordability" then d.affordability
  else if criterion = "employment" then d.employment
  else d.behavior

/-- `analyzeCriteria` (script.js lines 563-577): per-criterion mean over the
batch, in the fixed field order transaction, affordability, employment,
behavior. Always returns four entries, even on an empty batch (where each
average is `0/0`, the NaN sentinel). -/
def analyzeCriteria (data : List Processed) : List CriterionStat :=
  let criteria := ["transaction_history", "affordability", "employment", "behavior"]
  let names := ["Transaction History", "Affordability", "Employment", "Behavior"]
  (criteria.zip names).map fun p =>
    let scores := data.map fun d => critValue d p.1
    let avgScore := jsDiv (scores.foldl (· + ·) 0) (scores.length : ℚ)
    { key := p.1, name := p.2, avgScore := avgScore }

/-- JavaScript `<` on possibly-NaN averages: every comparison involving NaN
is false. -/
def jsLtB (a b : Option ℚ) : Bool :=
  match a, b with
  | some x, some y => decide (x < y)
  | _, _ => false

/-- The weakest-criterion selection of `updateInsights` (script.js line 502):
`criteriaStats.reduce((a, b) => a.avgScore < b.avgScore ? a : b)` —
JavaScript `reduce` without an initial value folds the tail with the first
element as accumulator. The `[]` case is unreachable since `analyzeCriteria`
always returns four entries. -/
def weakestCriterion (data : List Processed) : CriterionStat :=
  match analyzeCriteria data with
  | s :: rest =>
    rest.foldl (fun a b => if jsLtB a.avgScore b.avgScore then a else b) s
  | [] => { key := "", name := "", avgScore := none }

/-- The weakest-criterion selection as the claim words it (C5): lowest mean
with ties broken by *first*-encountered in the fixed field order — the
accumulator is kept unless the next entry is strictly lower. -/
def weakestCriterionFirstTie (data : List Processed) : CriterionStat :=
  match analyzeCriteria data with
  | s :: rest =>
    rest.foldl (fun a b => if jsLtB b.avgScore a.avgScore then b else a) s
  | [] => { key := "", name := "", avgScore := none }

/-- The per-criterion batch mean computed by `analyzeCriteria` for a given
field selector. -/
def criterionMean (data : List Processed) (f : Processed → ℚ) : ℚ :=
  ((data.map f).foldl (· + ·) 0) / (data.length : ℚ)

/-- The decision-rate computation of `updateInsights` (script.js lines
455-471): on an empty batch the function takes the guarded early-return
branch (modelled as `none`) and performs no division; otherwise it returns
the auto-approval, auto-denial and review (manual + elevated) percentages. -/
def insightRates (data : List Processed) : Option (ℚ × ℚ × ℚ) :=
  if data.length = 0 then none
  else
    let total : ℚ := (data.length : ℚ)
    some
      ((((data.filter fun d => d.decision == "Auto Approve").length : ℚ) / total) * 100,
       (((data.filter fun d => d.decision == "Auto Deny").length : ℚ) / total) * 100,
       (((data.filter fun d =>
           d.decision == "Manual Review" || d.decision == "Elevated Risk").length : ℚ) /
         total) * 100)

/-- **C6** — on the empty batch nothing throws and no unguarded failure
occurs: `analyzeCriteria []` still returns its four entries, each mean being
the NaN sentinel (`0/0`); the weakest-criterion fold over those four entries
is well defined (NaN comparisons are all false, so the last entry wins); and
the rate computation takes its guarded placeholder branch. -/
theorem emptyBatch_sentinels :
    analyzeCriteria [] =
      [{ key := "transaction_history", name := "Transaction History", avgScore := none },
       { key := "affordability", name := "Affordability", avgScore := none },
       { key := "employment", name := "Employment", avgScore := none },
       { key := "behavior", name := "Behavior", avgScore := none }] ∧
    weakestCriterion [] =
      { key := "behavior", name := "Behavior", avgScore := none } ∧
    insightRates [] = none := by
  refine ⟨?_, ?_, ?_⟩ <;> rfl

/-- **C5 counterexample** — the claim says mean ties are broken by the
*first*-encountered criterion in field order. On a batch whose transaction
and affordability means tie for lowest (a single record scored 10, 10, 50,
50), the code's `reduce` keeps the *later* element on a tie
(`a.avgScore < b.avgScore ? a : b` returns `b` when equal), so it reports
affordability, while the claim's first-encountered rule picks transaction. -/
theorem weakestCriterion_tie_counterexample :
    (weakestCriterion (processData [⟨"CUST-0001", 10, 10, 50, 50⟩])).key =
      "affordability" ∧
    (weakestCriterionFirstTie (processData [⟨"CUST-0001", 10, 10, 50, 50⟩])).key =
      "transaction_history" ∧
    ("affordability" : String) ≠ "transaction_history" := by
  refine ⟨?_, ?_, by decide⟩ <;>
    · norm_num [weakestCriterion, weakestCriterionFirstTie, analyzeCriteria,
        processData, processOne, critValue, jsDiv, jsLtB, List.foldl]
      simp +decide

/-- The four-entry `reduce` of `updateInsights`, characterised: with all four
averages present, the fold returns the entry with the lowest average, ties
broken in favour of the *last*-encountered entry. -/
theorem fold4_weakest (t a e b : CriterionStat) (mt ma me mb : ℚ)
    (ht : t.avgScore = some mt) (ha : a.avgScore = some ma)
    (he : e.avgScore = some me) (hb : b.avgScore = some mb) :
    List.foldl (fun x y => if jsLtB x.avgScore y.avgScore then x else y) t [a, e, b] =
      if mb ≤ min mt (min ma me) then b
      else if me ≤ min mt ma then e
      else if ma ≤ mt then a
      else t := by
  simp only [List.foldl_cons, List.foldl_nil]
  rcases lt_or_le mt ma with h1 | h1
  · rw [show (if jsLtB t.avgScore a.avgScore then t else a) = t by
      simp [jsLtB, ht, ha, h1]]
    rcases lt_or_le mt me with h2 | h2
    · rw [show (if jsLtB t.avgScore e.avgScore then t else e) = t by
        simp [jsLtB, ht, he, h2]]
      rcases lt_or_le mt mb with h3 | h3
      · rw [show (if jsLtB t.avgScore b.avgScore then t else b) = t by
          simp [jsLtB, ht, hb, h3]]
        rw [if_neg (not_le.mpr (lt_of_le_of_lt (min_le_left _ _) h3)),
          if_neg (not_le.mpr (lt_of_le_of_lt (min_le_left _ _) h2)),
          if_neg (not_le.mpr h1)]
      · rw [show (if jsLtB t.avgScore b.avgScore then t else b) = b by
          simp [jsLtB, ht, hb, not_lt.mpr h3]]
        rw [if_pos (le_min h3 (le_min (h3.trans h1.le) (h3.trans h2.le)))]
    · rw [show (if jsLtB t.avgScore e.avgScore then t else e) = e by
        simp [jsLtB, ht, he, not_lt.mpr h2]]
      rcases lt_or_le me mb with h3 | h3
      · rw [show (if jsLtB e.avgScore b.avgScore then e else b) = e by
          simp [jsLtB, he, hb, h3]]
        rw [if_neg (not_le.mpr
            (lt_of_le_of_lt (le_trans (min_le_right _ _) (min_le_right _ _)) h3)),
          if_pos (le_min h2 (h2.trans h1.le))]
      · rw [show (if jsLtB e.avgScore b.avgScore then e else b) = b by
          simp [jsLtB, he, hb, not_lt.mpr h3]]
        rw [if_pos (le_min (h3.trans h2)
          (le_min ((h3.trans h2).trans h1.le) h3))]
  · rw [show (if jsLtB t.avgScore a.avgScore then t else a) = a by
      simp [jsLtB, ht, ha, not_lt.mpr h1]]
    rcases lt_or_le ma me with h2 | h2
    · rw [show (if jsLtB a.avgScore e.avgScore then a else e) = a by
        simp [jsLtB, ha, he, h2]]
      rcases lt_or_le ma mb with h3 | h3
      · rw [show (if jsLtB a.avgScore b.avgScore then a else b) = a by
          simp [jsLtB, ha, hb, h3]]
        rw [if_neg (not_le.mpr
            (lt_of_le_of_lt (le_trans (min_le_right _ _) (min_le_left _ _)) h3)),
          if_neg (not_le.mpr (lt_of_le_of_lt (min_le_right _ _) h2)),
          if_pos h1]
      · rw [show (if jsLtB a.avgScore b.avgScore then a else b) = b by
          simp [jsLtB, ha, hb, not_lt.mpr h3]]
        rw [if_pos (le_min (h3.trans h1) (le_min h3 (h3.trans h2.le)))]
    · rw [show (if jsLtB a.avgScore e.avgScore then a else e) = e by
        simp [jsLtB, ha, he, not_lt.mpr h2]]
      rcases lt_or_le me mb with h3 | h3
      · rw [show (if jsLtB e.avgScore b.avgScore then e else b) = e by
          simp [jsLtB, he, hb, h3]]
        rw [if_neg (not_le.mpr
            (lt_of_le_of_lt (le_trans (min_le_right _ _) (min_le_right _ _)) h3)),
          if_pos (le_min (h2.trans h1) h2)]
      · rw [show (if jsLtB e.avgScore b.avgScore then e else b) = b by
          simp [jsLtB, he, hb, not_lt.mpr h3]]
        rw [if_pos (le_min ((h3.trans h2).trans h1) (le_min (h3.trans h2) h3))]

/-- `analyzeCriteria` on a non-empty batch: four entries in the fixed field
order, each mean present (no NaN). -/
theorem analyzeCriteria_nonempty (data : List Processed) (h : data ≠ []) :
    analyzeCriteria data =
      [{ key := "transaction_history", name := "Transaction History",
         avgScore := some (criterionMean data (·.transaction_history)) },
       { key := "affordability", name := "Affordability",
         avgScore := some (criterionMean data (·.affordability)) },
       { key := "employment", name := "Employment",
         avgScore := some (criterionMean data (·.employment)) },
       { key := "behavior", name := "Behavior",
         avgScore := some (criterionMean data (·.behavior)) }] := by
  have hlen : ((data.length : ℕ) : ℚ) ≠ 0 := by
    have h0 : data.length ≠ 0 := fun hh => h (List.length_eq_zero.mp hh)
    exact_mod_cast h0
  simp [analyzeCriteria, jsDiv, criterionMean, critValue, hlen]

/-- **C5 (amended)** — for every non-empty batch, the weakest criterion
reported is the criterion with the lowest per-criterion mean, but when two or
more criteria tie for the lowest mean the one reported is the *last*
encountered in the fixed field order transaction, affordability, employment,
behavior (the code's `reduce` keeps the later element on equal averages). -/
theorem weakestCriterion_lowest_mean (data : List Processed) (h : data ≠ []) :
    (weakestCriterion data).avgScore =
      some (min (min (min (criterionMean data (·.transaction_history))
        (criterionMean data (·.affordability)))
        (criterionMean data (·.employment)))
        (criterionMean data (·.behavior))) ∧
    weakestCriterion data =
      (if criterionMean data (·.behavior) ≤
          min (criterionMean data (·.transaction_history))
            (min (criterionMean data (·.affordability))
              (criterionMean data (·.employment))) then
        { key := "behavior", name := "Behavior",
          avgScore := some (criterionMean data (·.behavior)) }
      else if criterionMean data (·.employment) ≤
          min (criterionMean data (·.transaction_history))
            (criterionMean data (·.affordability)) then
        { key := "employment", name := "Employment",
          avgScore := some (criterionMean data (·.employment)) }
      else if criterionMean data (·.affordability) ≤
          criterionMean data (·.transaction_history) then
        { key := "affordability", name := "Affordability",
          avgScore := some (criterionMean data (·.affordability)) }
      else
        { key := "transaction_history", name := "Transaction History",
          avgScore := some (criterionMean data (·.transaction_history)) }) := by
  have hw : weakestCriterion data =
      (if criterionMean data (·.behavior) ≤
          min (criterionMean data (·.transaction_history))
            (min (criterionMean data (·.affordability))
              (criterionMean data (·.employment))) then
        { key := "behavior", name := "Behavior",
          avgScore := some (criterionMean data (·.behavior)) }
      else if criterionMean data (·.employment) ≤
          min (criterionMean data (·.transaction_history))
            (criterionMean data (·.affordability)) then
        { key := "employment", name := "Employment",
          avgScore := some (criterionMean data (·.employment)) }
      else if criterionMean data (·.affordability) ≤
          criterionMean data (·.transaction_history) then
        { key := "affordability", name := "Affordability",
          avgScore := some (criterionMean data (·.affordability)) }
      else
        { key := "transaction_history", name := "Transaction History",
          avgScore := some (criterionMean data (·.transaction_history)) }) := by
    unfold weakestCriterion
    rw [analyzeCriteria_nonempty data h]
    exact fold4_weakest _ _ _ _ _ _ _ _ rfl rfl rfl rfl
  refine ⟨?_, hw⟩
  rw [hw]
  split_ifs with hb he ha
  · have hb' := le_min_iff.mp hb
    have hb'' := le_min_iff.mp hb'.2
    exact congrArg some (le_antisymm
      (le_min (le_min (le_min hb'.1 hb''.1) hb''.2) le_rfl)
      (min_le_right _ _))
  · have he' := le_min_iff.mp he
    have hmin : min (criterionMean data (·.transaction_history))
        (min (criterionMean data (·.affordability))
          (criterionMean data (·.employment))) =
        criterionMean data (·.employment) := by
      rw [min_eq_right he'.2, min_eq_right he'.1]
    have hbe : criterionMean data (·.employment) <
        criterionMean data (·.behavior) := by
      have h3 := not_le.mp hb
      rwa [hmin] at h3
    exact congrArg some (le_antisymm
      (le_min (le_min (le_min he'.1 he'.2) le_rfl) hbe.le)
      (le_trans (min_le_left _ _) (min_le_right _ _)))
  · have hae : criterionMean data (·.affordability) <
        criterionMean data (·.employment) := by
      have h2 := not_le.mp he
      rwa [min_eq_right ha] at h2
    have hmin : min (criterionMean data (·.transaction_history))
        (min (criterionMean data (·.affordability))
          (criterionMean data (·.employment))) =
        criterionMean data (·.affordability) := by
      rw [min_eq_left hae.le, min_eq_right ha]
    have hab : criterionMean data (·.affordability) <
        criterionMean data (·.behavior) := by
      have h3 := not_le.mp hb
      rwa [hmin] at h3
    exact congrArg some (le_antisymm
      (le_min (le_min (le_min ha le_rfl) hae.le) hab.le)
      (le_trans (min_le_left _ _) (le_trans (min_le_left _ _) (min_le_right _ _))))
  · have hta : criterionMean data (·.transaction_history) <
        criterionMean data (·.affordability) := not_le.mp ha
    have hte : criterionMean data (·.transaction_history) <
        criterionMean data (·.employment) := by
      have h2 := not_le.mp he
      rwa [min_eq_left hta.le] at h2
    have htb : criterionMean data (·.transaction_history) <
        criterionMean data (·.behavior) := by
      have h3 := not_le.mp hb
      rwa [min_eq_left (le_min hta.le hte.le)] at h3
    exact congrArg some (le_antisymm
      (le_min (le_min (le_min le_rfl hta.le) hte.le) htb.le)
      (le_trans (min_le_left _ _) (le_trans (min_le_left _ _) (min_le_left _ _))))

/-- Witness for the amended C5 on a concrete single-record batch. -/
theorem weakestCriterion_lowest_mean_witness :
    processData [⟨"CUST-0001", 10, 20, 50, 60⟩] ≠ [] ∧
    (weakestCriterion (processData [⟨"CUST-0001", 10, 20, 50, 60⟩])).avgScore =
      some (min (min (min
        (criterionMean (processData [⟨"CUST-0001", 10, 20, 50, 60⟩]) (·.transaction_history))
        (criterionMean (processData [⟨"CUST-0001", 10, 20, 50, 60⟩]) (·.affordability)))
        (criterionMean (processData [⟨"CUST-0001", 10, 20, 50, 60⟩]) (·.employment)))
        (criterionMean (processData [⟨"CUST-0001", 10, 20, 50, 60⟩]) (·.behavior))) := by
  have hne : processData [⟨"CUST-0001", 10, 20, 50, 60⟩] ≠ [] := by
    simp [processData]
  exact ⟨hne, (weakestCriterion_lowest_mean _ hne).1⟩

/-- `getRandomProfile` (script.js lines 279-285), applied to one uniform
[0,1) draw: cumulative thresholds 0.30 / 0.70 / 0.90. -/
def getRandomProfile (u : ℚ) : String :=
  if u < 3/10 then "excellent"
  else if u < 7/10 then "good"
  else if u < 9/10 then "fair"
  else "poor"

/-- `baseRanges` of `generateScore` (script.js lines 299-304), as (min, max).
The final branch is the `poor` range; only the four profile strings produced
by `getRandomProfile` ever reach this lookup in the source. -/
def baseRange (profile : String) : ℤ × ℤ :=
  if profile = "excellent" then (70, 100)
  else if profile = "good" then (50, 85)
  else if profile = "fair" then (30, 65)
  else (10, 45)

/-- The `variation` table of `generateScore` (script.js lines 307-312) with
its `|| 0` fallback: affordability −5, employment +5, anything else 0. -/
def variationOf (criterion : String) : ℤ :=
  if criterion = "affordability" then -5
  else if criterion = "employment" then 5
  else 0

/-- `Math.max(0, Math.min(100, x))`, the clamp used twice in `generateScore`. -/
def clamp100 (x : ℤ) : ℤ := max 0 (min 100 x)

/-- The base draw of `generateScore` (script.js lines 315-317):
`Math.floor(Math.random() * (range.max - range.min + 1) + range.min)` with
the uniform draw made explicit. -/
def jsBase (profile : String) (u : ℚ) : ℤ :=
  ⌊u * (((baseRange profile).2 - (baseRange profile).1 + 1 : ℤ) : ℚ) +
    (((baseRange profile).1 : ℤ) : ℚ)⌋

/-- `generateScore` (script.js lines 298-326) with its two uniform draws made
explicit: base draw, clamp after the criterion offset, noise
`Math.floor(Math.random() * 11) - 5`, clamp again. -/
def generateScore (profile criterion : String) (u1 u2 : ℚ) : ℤ :=
  let score1 := jsBase profile u1
  let score2 := clamp100 (score1 + variationOf criterion)
  let score3 := score2 + (⌊u2 * 11⌋ - 5)
  clamp100 score3

/-- The score generation as claim C8 words it: base plus offset plus noise,
clamped *once* at the end. Compared with `generateScore`. -/
def generateScoreSingleClamp (profile criterion : String) (u1 u2 : ℚ) : ℤ :=
  clamp100 (jsBase profile u1 + variationOf criterion + (⌊u2 * 11⌋ - 5))

/-- Little-endian decimal digit characters of `n`, with explicit structural
fuel (first argument) so that evaluation is definitional. -/
def decDigitsAux : ℕ → ℕ → List Char
  | 0, _ => []
  | _ + 1, 0 => []
  | fuel + 1, n + 1 => Nat.digitChar ((n + 1) % 10) :: decDigitsAux fuel ((n + 1) / 10)

/-- JavaScript `String(n)` for a natural number: its decimal digits. -/
def natToString (n : ℕ) : String :=
  if n = 0 then "0" else ⟨(decDigitsAux n n).reverse⟩

/-- JavaScript `s.padStart(4, '0')` (script.js line 251). -/
def padStart4 (s : String) : String :=
  ⟨List.replicate (4 - s.data.length) '0' ++ s.data⟩

/-- The customer id of the i-th generated record (script.js line 251):
`` `CUST-${String(i).padStart(4, '0')}` ``. -/
def custId (i : ℕ) : String := "CUST-" ++ padStart4 (natToString i)

/-- Numeric value of a decimal digit character. -/
def digitVal (c : Char) : ℕ := c.toNat - Char.toNat '0'

/-- Decimal value of a digit string (most significant first). -/
def unpadVal (s : String) : ℕ :=
  Nat.ofDigits 10 ((s.data.map digitVal).reverse)

/-- Left inverse of `custId`: drop the `CUST-` prefix and read the digits. -/
def stripCustId (s : String) : ℕ := unpadVal ⟨s.data.drop 5⟩

/-- `generateSampleData` (script.js lines 246-269) with the random source
made explicit as a stream `g` of draws: each record `i` (1-based) consumes
nine consecutive draws — one for the profile, then a base and a noise draw
for each of the four criteria in order transaction, affordability,
employment, behavior. -/
def generateSampleData (count : ℕ) (g : ℕ → ℚ) : List Customer :=
  (List.range count).map fun k =>
    let o := 9 * k
    let profile := getRandomProfile (g o)
    { customer_id := custId (k + 1)
      transaction_history :=
        ((generateScore profile "transaction" (g (o+1)) (g (o+2)) : ℤ) : ℚ)
      affordability :=
        ((generateScore profile "affordability" (g (o+3)) (g (o+4)) : ℤ) : ℚ)
      employment :=
        ((generateScore profile "employment" (g (o+5)) (g (o+6)) : ℤ) : ℚ)
      behavior :=
        ((generateScore profile "behavior" (g (o+7)) (g (o+8)) : ℤ) : ℚ) }

theorem clamp100_bounds (x : ℤ) : 0 ≤ clamp100 x ∧ clamp100 x ≤ 100 :=
  ⟨le_max_left _ _, max_le (by norm_num) (min_le_left _ _)⟩

theorem generateScore_bounds (profile criterion : String) (u1 u2 : ℚ) :
    0 ≤ generateScore profile criterion u1 u2 ∧
    generateScore profile criterion u1 u2 ≤ 100 :=
  clamp100_bounds _

theorem digitVal_digitChar (d : ℕ) (hd : d < 10) :
    digitVal (Nat.digitChar d) = d := by
  interval_cases d <;> rfl

theorem ofDigits_decDigitsAux (fuel : ℕ) :
    ∀ n, n ≤ fuel → Nat.ofDigits 10 ((decDigitsAux fuel n).map digitVal) = n := by
  induction fuel with
  | zero =>
    intro n hn
    interval_cases n
    rfl
  | succ fuel ih =>
    intro n hn
    match n with
    | 0 => rfl
    | n + 1 =>
      rw [decDigitsAux]
      simp only [List.map_cons, Nat.ofDigits_cons]
      rw [digitVal_digitChar _ (Nat.mod_lt _ (by norm_num))]
      have hdiv : (n + 1) / 10 ≤ fuel := by
        have := Nat.div_lt_self (Nat.succ_pos n) (by norm_num : 1 < 10)
        omega
      rw [ih _ hdiv]
      exact Nat.mod_add_div (n + 1) 10

theorem ofDigits_replicate_zero (k : ℕ) :
    Nat.ofDigits 10 (List.replicate k 0) = 0 := by
  induction k with
  | zero => rfl
  | succ k ih => simp [List.replicate_succ, Nat.ofDigits_cons, ih]

theorem unpadVal_padStart4_natToString (i : ℕ) :
    unpadVal (padStart4 (natToString i)) = i := by
  rcases Nat.eq_zero_or_pos i with h0 | hpos
  · subst h0; rfl
  · unfold unpadVal padStart4 natToString
    rw [if_neg (Nat.pos_iff_ne_zero.mp hpos)]
    have h00 : digitVal '0' = 0 := rfl
    simp only [List.map_append, List.map_replicate, h00, List.reverse_append,
      List.reverse_replicate, List.map_reverse, List.reverse_reverse,
      Nat.ofDigits_append, ofDigits_replicate_zero, mul_zero, add_zero]
    exact ofDigits_decDigitsAux i i le_rfl

theorem stripCustId_custId (i : ℕ) : stripCustId (custId i) = i := by
  unfold stripCustId custId
  rw [String.data_append]
  have h5 : ("CUST-" : String).data.length = 5 := rfl
  rw [← h5, List.drop_left]
  exact unpadVal_padStart4_natToString i

theorem custId_injective : Function.Injective custId := by
  intro i j hij
  have h2 := congrArg stripCustId hij
  rwa [stripCustId_custId, stripCustId_custId] at h2

/-- Base draws land in the profile's base range when the draw is uniform
in [0,1). -/
theorem jsBase_range_bounds (lo hi : ℤ) (hlh : lo ≤ hi) (u : ℚ)
    (h1 : 0 ≤ u) (h2 : u < 1) :
    lo ≤ ⌊u * ((hi - lo + 1 : ℤ) : ℚ) + ((lo : ℤ) : ℚ)⌋ ∧
    ⌊u * ((hi - lo + 1 : ℤ) : ℚ) + ((lo : ℤ) : ℚ)⌋ ≤ hi := by
  have hk : (0 : ℚ) < (hi : ℚ) - (lo : ℚ) + 1 := by
    have hc : ((lo : ℤ) : ℚ) ≤ ((hi : ℤ) : ℚ) := by exact_mod_cast hlh
    linarith
  constructor
  · apply Int.le_floor.mpr
    push_cast
    nlinarith [mul_nonneg h1 hk.le]
  · have hlt : ⌊u * ((hi - lo + 1 : ℤ) : ℚ) + ((lo : ℤ) : ℚ)⌋ < hi + 1 := by
      apply Int.floor_lt.mpr
      push_cast
      nlinarith [mul_lt_mul_of_pos_right h2 hk]
    omega

theorem baseRange_le (profile : String) :
    (baseRange profile).1 ≤ (baseRange profile).2 := by
  unfold baseRange
  split_ifs <;> decide

/-- **C8 counterexample** — the claim says the generated score clamps into
[0,100] once, at the end. With profile `excellent`, criterion `employment`,
base draw 28/31 (base value 98) and noise draw 1/11 (noise −4), the code
clamps 98 + 5 = 103 down to 100 *before* adding the noise, yielding 96,
while the claim's single final clamp yields clamp(98 + 5 − 4) = 99. -/
theorem generateScore_singleClamp_counterexample :
    generateScore "excellent" "employment" (28/31) (1/11) = 96 ∧
    generateScoreSingleClamp "excellent" "employment" (28/31) (1/11) = 99 ∧
    (96 : ℤ) ≠ 99 := by
  have hbase : jsBase "excellent" (28/31) = 98 := by
    norm_num [jsBase, baseRange]
  have hnoise : ⌊(1/11 : ℚ) * 11⌋ = 1 := by norm_num
  refine ⟨?_, ?_, by decide⟩ <;>
    simp [generateScore, generateScoreSingleClamp, hbase, hnoise, variationOf,
      clamp100]

/-- **C8 (amended)** — for every profile, criterion, and pair of uniform
[0,1) draws: the base value is a uniform integer drawn from the profile's
base range (excellent [70,100], good [50,85], fair [30,65], poor [10,45]),
the noise term lies in [−5,+5], and the generated score is obtained by
adding the fixed per-criterion offset (affordability −5, employment +5,
others 0) to the base, clamping into [0,100], then adding the noise and
clamping into [0,100] *again* — two clamps, not one. -/
theorem generateScore_double_clamp (profile criterion : String) (u1 u2 : ℚ)
    (h1 : 0 ≤ u1) (h2 : u1 < 1) (h3 : 0 ≤ u2) (h4 : u2 < 1) :
    (baseRange profile).1 ≤ jsBase profile u1 ∧
    jsBase profile u1 ≤ (baseRange profile).2 ∧
    -5 ≤ ⌊u2 * 11⌋ - 5 ∧ ⌊u2 * 11⌋ - 5 ≤ 5 ∧
    generateScore profile criterion u1 u2 =
      clamp100 (clamp100 (jsBase profile u1 + variationOf criterion) +
        (⌊u2 * 11⌋ - 5)) := by
  obtain ⟨hlo, hhi⟩ :=
    jsBase_range_bounds (baseRange profile).1 (baseRange profile).2
      (baseRange_le profile) u1 h1 h2
  refine ⟨hlo, hhi, ?_, ?_, rfl⟩
  · have : (0 : ℤ) ≤ ⌊u2 * 11⌋ := Int.le_floor.mpr (by positivity)
    omega
  · have : ⌊u2 * 11⌋ < 11 := Int.floor_lt.mpr (by push_cast; nlinarith)
    omega

/-- Witness for the amended C8 at the concrete draws of the counterexample. -/
theorem generateScore_double_clamp_witness :
    70 ≤ jsBase "excellent" (28/31) ∧
    jsBase "excellent" (28/31) ≤ 100 ∧
    generateScore "excellent" "employment" (28/31) (1/11) =
      clamp100 (clamp100 (jsBase "excellent" (28/31) + variationOf "employment") +
        (⌊(1/11 : ℚ) * 11⌋ - 5)) := by
  have h := generateScore_double_clamp "excellent" "employment" (28/31) (1/11)
    (by norm_num) (by norm_num) (by norm_num) (by norm_num)
  exact ⟨h.1, h.2.1, h.2.2.2.2⟩

/-- **C7** — for every count `n` and every stream of draws,
`generateSampleData n g` returns exactly `n` records; every criterion field
of every generated record lies in [0,100] (the final clamp guarantees this
for arbitrary draws); and the customer ids are exactly the zero-padded
sequence `CUST-0001`, `CUST-0002`, … in order, with no duplicates. -/
theorem generateSampleData_spec (count : ℕ) (g : ℕ → ℚ) :
    (generateSampleData count g).length = count ∧
    (∀ r ∈ generateSampleData count g,
      (0 ≤ r.transaction_history ∧ r.transaction_history ≤ 100) ∧
      (0 ≤ r.affordability ∧ r.affordability ≤ 100) ∧
      (0 ≤ r.employment ∧ r.employment ≤ 100) ∧
      (0 ≤ r.behavior ∧ r.behavior ≤ 100)) ∧
    (generateSampleData count g).map (fun r => r.customer_id) =
      (List.range count).map (fun k => custId (k + 1)) ∧
    ((generateSampleData count g).map (fun r => r.customer_id)).Nodup ∧
    custId 1 = "CUST-0001" ∧ custId 2 = "CUST-0002" ∧ custId 3 = "CUST-0003" := by
  have hmap : (generateSampleData count g).map (fun r => r.customer_id) =
      (List.range count).map (fun k => custId (k + 1)) := by
    simp only [generateSampleData, List.map_map]
    rfl
  refine ⟨by simp [generateSampleData], ?_, hmap, ?_, by decide, by decide, by decide⟩
  · intro r hr
    simp only [generateSampleData, List.mem_map] at hr
    obtain ⟨k, _, rfl⟩ := hr
    dsimp only
    refine ⟨⟨?_, ?_⟩, ⟨?_, ?_⟩, ⟨?_, ?_⟩, ⟨?_, ?_⟩⟩
    · exact_mod_cast (generateScore_bounds _ _ _ _).1
    · exact_mod_cast (generateScore_bounds _ _ _ _).2
    · exact_mod_cast (generateScore_bounds _ _ _ _).1
    · exact_mod_cast (generateScore_bounds _ _ _ _).2
    · exact_mod_cast (generateScore_bounds _ _ _ _).1
    · exact_mod_cast (generateScore_bounds _ _ _ _).2
    · exact_mod_cast (generateScore_bounds _ _ _ _).1
    · exact_mod_cast (generateScore_bounds _ _ _ _).2
  · rw [hmap]
    refine List.Nodup.map ?_ (List.nodup_range count)
    intro i j hij
    have := custId_injective hij
    omega

/-- Witness for C7 on a concrete one-record generation with all draws 1/2
(profile `good`, base 68, noise 0). -/
theorem generateSampleData_spec_witness :
    (generateSampleData 1 (fun _ => (1/2 : ℚ))).length = 1 ∧
    (0 ≤ (⟨custId 1, 68, 63, 73, 68⟩ : Customer).transaction_history ∧
      (⟨custId 1, 68, 63, 73, 68⟩ : Customer).transaction_history ≤ 100) := by
  have h := generateSampleData_spec 1 (fun _ => (1/2 : ℚ))
  have hp : getRandomProfile (1/2) = "good" := by
    norm_num [getRandomProfile]
  have hbr : baseRange "good" = (50, 85) := by simp [baseRange]
  have hbase : jsBase "good" (1/2) = 68 := by
    norm_num [jsBase, hbr]
  have hnoise : ⌊(1/2 : ℚ) * 11⌋ = 5 := by norm_num
  have hv1 : variationOf "transaction" = 0 := by simp [variationOf]
  have hv2 : variationOf "affordability" = -5 := by simp [variationOf]
  have hv3 : variationOf "employment" = 5 := by simp [variationOf]
  have hv4 : variationOf "behavior" = 0 := by simp [variationOf]
  have hc63 : clamp100 63 = 63 := by decide
  have hc68 : clamp100 68 = 68 := by decide
  have hc73 : clamp100 73 = 73 := by decide
  have hgen : generateSampleData 1 (fun _ => (1/2 : ℚ)) =
      [⟨custId 1, 68, 63, 73, 68⟩] := by
    norm_num [generateSampleData, generateScore, hp, hbase, hnoise,
      hv1, hv2, hv3, hv4, hc63, hc68, hc73]
    rfl
  have hmem : (⟨custId 1, 68, 63, 73, 68⟩ : Customer) ∈
      generateSampleData 1 (fun _ => (1/2 : ℚ)) := by
    rw [hgen]
    exact List.mem_singleton_self _
  exact ⟨h.1, (h.2.1 _ hmem).1⟩
